import Mathlib

/-!
Verification of the Tiered Layer Placement & Transfer Engine
(`src/scripts/tensor-server.py` of GREY-DAWN).

The Python source is shallowly embedded: classes become structures,
methods become pure functions, machine time stamps become naturals,
`Optional[T]` becomes `Option T`, Python dict lookups with defaults
become `Option.getD`, and the mutable global registry becomes explicit
state passing over a `List LayerMetadata`.  Float arithmetic in the
hardware detector is idealised as exact integer arithmetic truncated
toward zero (Python `int(...)`), which is `Int.tdiv`.

The transfer execution loop (worker pool draining the priority queue)
is not present in the visible source; where a claim depends on it, the
executor is modelled from the spec (section 4.3) and marked as such.
-/

namespace TensorServer

/-- Embedding of `LayerMetadata` (tensor-server.py, lines 152-184).
Mutable fields of the Python object are fields of the structure;
`torch.dtype` and the shape tuple are irrelevant to the claims and
kept as opaque strings / lists of naturals.  Timestamps are naturals. -/
structure LayerMetadata where
  id : Nat
  name : String
  originalSizeBytes : Nat
  currentSizeBytes : Nat
  currentDevice : String
  gpuId : Option Nat
  compressionType : Option String
  quantizationType : Option String
  nvmePath : Option String
  ramdiskPath : Option String
  accessCount : Nat
  lastAccessTimestamp : Nat
  loadedInMemory : Bool
  deriving Repr, DecidableEq

/-- Embedding of `LayerMetadata.__init__` (lines 153-184).  Note the
constructor forces `gpu_id` to `None` unless `current_device == "gpu"`,
but stores the `nvme_path` and `ramdisk_path` arguments unchecked, and
sets `loaded_in_memory = (current_device not in ["nvme"])`. -/
def mkLayerMetadata (layer_id : Nat) (name : String) (original_size_bytes : Nat)
    (current_device : String) (gpu_id : Option Nat)
    (compression_type : Option String) (quantization_type : Option String)
    (nvme_path : Option String) (ramdisk_path : Option String) : LayerMetadata :=
  { id := layer_id
    name := name
    originalSizeBytes := original_size_bytes
    currentSizeBytes := original_size_bytes
    currentDevice := current_device
    gpuId := if current_device = "gpu" then gpu_id else none
    compressionType := compression_type
    quantizationType := quantization_type
    nvmePath := nvme_path
    ramdiskPath := ramdisk_path
    accessCount := 0
    lastAccessTimestamp := 0
    loadedInMemory := !(["nvme"].contains current_device) }

/-- Embedding of `LayerMetadata.set_location` (lines 199-213): sets the
device, forces `gpu_id` consistent, recomputes `loaded_in_memory`, and
clears whichever of the two paths does not belong to the new device. -/
def setLocation (m : LayerMetadata) (device_type_str : String)
    (path_val : Option String) (gpu_id_val : Option Nat) : LayerMetadata :=
  { m with
    currentDevice := device_type_str
    gpuId := if device_type_str = "gpu" then gpu_id_val else none
    loadedInMemory := !(["nvme"].contains device_type_str)
    nvmePath := if device_type_str = "nvme" then path_val else none
    ramdiskPath := if device_type_str = "ramdisk" then path_val
      else if device_type_str = "nvme" then none else none }

/-- Embedding of `LayerMetadata.update_access_stats` (lines 189-197). -/
def updateAccessStats (m : LayerMetadata) (now : Nat) : LayerMetadata :=
  { m with accessCount := m.accessCount + 1, lastAccessTimestamp := now }

/-- A filesystem location path is meaningful when either stored path is
present (`nvme_path` or `ramdisk_path`). -/
def locationPathMeaningful (m : LayerMetadata) : Prop :=
  m.nvmePath.isSome ∨ m.ramdiskPath.isSome

/-- An accelerator id is meaningful when `gpu_id` is present. -/
def acceleratorIdMeaningful (m : LayerMetadata) : Prop :=
  m.gpuId.isSome

instance (m : LayerMetadata) : Decidable (locationPathMeaningful m) := by
  unfold locationPathMeaningful; infer_instance

instance (m : LayerMetadata) : Decidable (acceleratorIdMeaningful m) := by
  unfold acceleratorIdMeaningful; infer_instance

/-- The location invariant of the spec (section 3): exactly one of
{location path, accelerator id} is meaningful, determined by the tier —
a path only for ramdisk/nvme, an accelerator id only for gpu, and
neither otherwise. -/
def locationInvariant (m : LayerMetadata) : Prop :=
  ¬ (locationPathMeaningful m ∧ acceleratorIdMeaningful m) ∧
  (locationPathMeaningful m → m.currentDevice = "ramdisk" ∨ m.currentDevice = "nvme") ∧
  (acceleratorIdMeaningful m → m.currentDevice = "gpu") ∧
  (m.currentDevice ≠ "ramdisk" ∧ m.currentDevice ≠ "nvme" ∧ m.currentDevice ≠ "gpu" →
    ¬ locationPathMeaningful m ∧ ¬ acceleratorIdMeaningful m)

instance (m : LayerMetadata) : Decidable (locationInvariant m) := by
  unfold locationInvariant; infer_instance

/-- Embedding of `TransferRequest` (tensor-server.py, lines 225-237).
`time.time()` at construction becomes an explicit natural timestamp;
the optional tensor payload is irrelevant to the claims and omitted;
the optional completion callback is modelled by its presence flag plus
a ghost counter of how many times it has been invoked. -/
structure TransferRequest where
  layerId : Nat
  sourceDevice : String
  destinationDevice : String
  priority : Nat
  timestamp : Nat
  hasCallback : Bool
  status : String
  errorMessage : Option String
  callbackCount : Nat
  deriving Repr, DecidableEq

/-- Embedding of `TransferRequest.__init__` (lines 226-237): status
starts `"pending"`, no error, callback not yet invoked. -/
def mkTransferRequest (layer_id : Nat) (source_device_str destination_device_str : String)
    (priority : Nat) (now : Nat) (has_callback : Bool) : TransferRequest :=
  { layerId := layer_id
    sourceDevice := source_device_str
    destinationDevice := destination_device_str
    priority := priority
    timestamp := now
    hasCallback := has_callback
    status := "pending"
    errorMessage := none
    callbackCount := 0 }

/-- Embedding of `TransferRequest.__lt__` (lines 239-242): equal
priorities compare by timestamp, otherwise by priority (1 = highest). -/
def transferLt (a b : TransferRequest) : Bool :=
  if a.priority = b.priority then a.timestamp < b.timestamp
  else a.priority < b.priority

/-- Embedding of `TransferRequest.update_status` (lines 244-252): the
status is overwritten unconditionally; a non-empty error message is
recorded; the callback is invoked (here: counted) whenever the new
status is `"completed"` or `"failed"` and a callback is present. -/
def updateStatus (r : TransferRequest) (new_status_str : String)
    (error_msg_str : Option String) : TransferRequest :=
  { r with
    status := new_status_str
    errorMessage :=
      match error_msg_str with
      | some s => if s ≠ "" then some s else r.errorMessage
      | none => r.errorMessage
    callbackCount :=
      if (new_status_str = "completed" ∨ new_status_str = "failed") ∧ r.hasCallback then
        r.callbackCount + 1
      else r.callbackCount }

/-- Applying a whole sequence of `update_status` calls in order. -/
def updateStatusSeq (r : TransferRequest) : List (String × Option String) → TransferRequest
  | [] => r
  | (s, e) :: rest => updateStatusSeq (updateStatus r s e) rest

/-- Whether a status string is terminal (`"completed"` or `"failed"`). -/
def isTerminalStatus (s : String) : Bool :=
  s = "completed" ∨ s = "failed"

/-- The availability part of the global `hardware_summary` dict
(tensor-server.py, lines 53-60): per-tier `"available"` flags as
written by `detect_all_hardware`. -/
structure HardwareSummary where
  gpuAvailable : Bool
  nvmeAvailable : Bool
  ramdiskAvailable : Bool
  deriving Repr, DecidableEq

/-- Whether a tier named by a device string is available in the
snapshot; `"cpu"` (host memory) is always available. -/
def tierAvailable (hw : HardwareSummary) (device : String) : Bool :=
  if device = "gpu" then hw.gpuAvailable
  else if device = "nvme" then hw.nvmeAvailable
  else if device = "ramdisk" then hw.ramdiskAvailable
  else true

/-- Registry lookup, embedding `layer_metadata_registry.get(layer_id)`
(the dict keyed by layer id, line 63; lookup at line 720). -/
def registryGet (reg : List LayerMetadata) (layer_id : Nat) : Option LayerMetadata :=
  reg.find? (fun l => l.id == layer_id)

/-- Maximum size of `layer_transfer_queue` (line 69:
`queue.PriorityQueue(maxsize=200)`). -/
def transferQueueMaxsize : Nat := 200

/-- The accepted destination-device prefixes of `api_transfer_layer`
(line 724). -/
def validPrefixes : List String := ["cpu", "gpu", "ramdisk", "nvme"]

/-- Python `s.startswith(p)`, embedded as a character-list prefix
test. -/
def pyStartsWith (s p : String) : Bool :=
  p.data.isPrefixOf s.data

/-- Result of the `POST /api/layers/transfer` endpoint: HTTP 202 with a
queued request, or one of the three error responses it raises. -/
inductive SubmitResult where
  | accepted (layerId : Nat) (destination : String)
  | layerNotFound
  | invalidDestination
  | queueFull
  deriving Repr, DecidableEq

/-- Embedding of `api_transfer_layer` (tensor-server.py, lines
718-734).  Looks the layer up (404 if absent), validates the
destination prefix (400 if invalid), builds a `TransferRequest` from
the layer's current device, and `put_nowait`s it: if the queue already
holds `maxsize` items this raises `queue.Full` (503) and the queue is
untouched, otherwise the request is added.  The queue is modelled by
its multiset of contents as a list; dequeue order is modelled
separately by `drainQueue`.  Note the endpoint reads only the registry
and the queue — it does not consult `hardware_summary`. -/
def apiTransferLayer (reg : List LayerMetadata) (queue : List TransferRequest)
    (now : Nat) (req_layer_id : Nat) (destination_device : String)
    (priority : Nat) : SubmitResult × List TransferRequest :=
  match registryGet reg req_layer_id with
  | none => (.layerNotFound, queue)
  | some meta =>
    if !(validPrefixes.any (fun p => pyStartsWith destination_device p)) then
      (.invalidDestination, queue)
    else
      let transferObj := mkTransferRequest meta.id meta.currentDevice
        destination_device priority now false
      if queue.length ≥ transferQueueMaxsize then (.queueFull, queue)
      else (.accepted meta.id destination_device, queue ++ [transferObj])

/-- One step of draining `queue.PriorityQueue`: scan for the minimal
element under `__lt__` (`transferLt`), keeping the earliest-scanned
among ties, and return it with the remaining elements. -/
def selectMin (m : TransferRequest) (l : List TransferRequest) :
    TransferRequest × List TransferRequest :=
  match l with
  | [] => (m, [])
  | x :: xs =>
    if transferLt x m then
      ((selectMin x xs).1, m :: (selectMin x xs).2)
    else
      ((selectMin m xs).1, x :: (selectMin m xs).2)

/-- Fuelled drain loop (fuel bounds the number of `get()` calls). -/
def drainQueueFuel : Nat → List TransferRequest → List TransferRequest
  | 0, _ => []
  | _, [] => []
  | n + 1, x :: xs =>
    (selectMin x xs).1 :: drainQueueFuel n (selectMin x xs).2

/-- Draining the priority queue to exhaustion: the sequence of
`get()` results, each return being a minimal element under `__lt__`
(Python's `queue.PriorityQueue` heap pops a smallest element; under
the distinct-timestamp hypothesis of the ordering theorem the minimal
element is unique, so the model is faithful). -/
def drainQueue (l : List TransferRequest) : List TransferRequest :=
  drainQueueFuel l.length l

/-- Per-`GPU` part of the configuration consumed by
`detect_all_hardware` (tensor-server.py, lines 332-333): the two
per-device dicts and the two defaults; an absent key is `none`. -/
structure GpuConfig where
  reservedVramMbPerGpu : Nat → Option Int
  reservedVramMbDefault : Option Int
  maxUtilizationPercentPerGpu : Nat → Option Int
  maxUtilizationPercentDefault : Option Int

/-- `gpu_cfg.get("reserved_vram_mb_per_gpu", {}).get(str(i),
gpu_cfg.get("reserved_vram_mb_default", 256))` (line 332). -/
def reservedVramMb (cfg : GpuConfig) (i : Nat) : Int :=
  (cfg.reservedVramMbPerGpu i).getD (cfg.reservedVramMbDefault.getD 256)

/-- `gpu_cfg.get("max_utilization_percent_per_gpu", {}).get(str(i),
gpu_cfg.get("max_utilization_percent_default", 90))` (line 333). -/
def maxUtilizationPct (cfg : GpuConfig) (i : Nat) : Int :=
  (cfg.maxUtilizationPercentPerGpu i).getD (cfg.maxUtilizationPercentDefault.getD 90)

/-- The per-device entry appended to `hardware_summary["gpu"]["devices"]`
(lines 339-343); name and compute capability are irrelevant here. -/
structure GpuDeviceInfo where
  id : Nat
  totalMemoryBytes : Int
  usableMemoryBytesPlanning : Int
  deriving Repr, DecidableEq

/-- Body of the detection loop (lines 332-336):
`usable = int((props.total_memory - reserved_vram_mb*1024*1024) *
(max_util_pct/100.0)); usable = max(0, usable)`.  Python float
arithmetic is idealised as exact arithmetic; `int(...)` of the exact
value is truncation toward zero, `Int.tdiv`. -/
def usableVramForGpu (cfg : GpuConfig) (total_memory : Int) (i : Nat) : Int :=
  max 0 (Int.tdiv ((total_memory - reservedVramMb cfg i * (1024 * 1024)) *
    maxUtilizationPct cfg i) 100)

/-- The GPU detection loop of `detect_all_hardware` (lines 329-346),
processing devices `0 .. count-1` in order, appending a device entry
and accumulating `total_usable_vram_b`. -/
def detectGpuLoop (cfg : GpuConfig) (totalMemory : Nat → Int) :
    Nat → List GpuDeviceInfo × Int
  | 0 => ([], 0)
  | n + 1 =>
    let acc := detectGpuLoop cfg totalMemory n
    let usable := usableVramForGpu cfg (totalMemory n) n
    (acc.1 ++ [⟨n, totalMemory n, usable⟩], acc.2 + usable)

/-- The formula of the claim, written from the spec's words: device
`i`'s usable planning memory is
`max(0, (total_memory_bytes − reserved_vram_mb(i)·2^20) ·
max_utilization_percent(i) / 100)` with the per-device configured
values falling back to configured defaults. -/
def specUsableAcceleratorMemory (cfg : GpuConfig) (total_memory : Int) (i : Nat) : Int :=
  max 0 (Int.tdiv ((total_memory - reservedVramMb cfg i * 2 ^ 20) *
    maxUtilizationPct cfg i) 100)

/-- Per-tier capacity budget (spec section 3, `CapacityBudget`). -/
structure CapacityBudget where
  totalCapacityBytes : Nat
  reservedBytes : Nat
  maxUtilizationFraction : ℚ
  deriving DecidableEq

/-- `currently_used_bytes` of a tier, derived by summing
`current_size_bytes` of the layers whose `current_tier` equals it
(spec section 3). -/
def usedBytes (reg : List LayerMetadata) (tier : String) : Nat :=
  ((reg.filter (fun l => l.currentDevice == tier)).map
    (fun l => l.currentSizeBytes)).sum

/-- The destination-tier capacity check of the coordinator (spec
sections 4.3, 5): admitting `incoming` more bytes into `tier` keeps
`used + incoming + reserved ≤ capacity · max_utilization_fraction`. -/
def capacityWouldHold (budgets : String → CapacityBudget) (reg : List LayerMetadata)
    (tier : String) (incoming : Nat) : Prop :=
  ((usedBytes reg tier + incoming + (budgets tier).reservedBytes : ℚ)) ≤
    ((budgets tier).totalCapacityBytes : ℚ) * (budgets tier).maxUtilizationFraction

instance (budgets : String → CapacityBudget) (reg : List LayerMetadata)
    (tier : String) (incoming : Nat) :
    Decidable (capacityWouldHold budgets reg tier incoming) := by
  unfold capacityWouldHold; infer_instance

/-- The per-tier capacity invariant of spec sections 3 and 8:
`currently_used_bytes + reserved_bytes ≤ total_capacity_bytes ·
max_utilization_fraction` for every tier. -/
def tierInvariant (budgets : String → CapacityBudget) (reg : List LayerMetadata) : Prop :=
  ∀ tier : String,
    ((usedBytes reg tier + (budgets tier).reservedBytes : ℚ)) ≤
      ((budgets tier).totalCapacityBytes : ℚ) * (budgets tier).maxUtilizationFraction

/-- Outcome of one executed transfer. -/
inductive TransferOutcome where
  | completedNoop
  | completed
  | failedCapacity
  | ioFailure (cause : String)
  | failedUnknownLayer
  deriving Repr, DecidableEq

/-- Modelled from the spec: the transfer execution step of the
TransferCoordinator's worker loop (spec section 4.3), which is absent
from the visible source (spec section 9 notes the worker pool and
execution loop are not present).  A worker that claimed `req`:
resolves the layer; completes immediately as a no-op when the layer is
already on the destination (idempotence, section 4.3); re-validates
the destination tier's capacity against the current budget and fails
with `CapacityExceeded` without mutating anything; then performs the
I/O (its result is the `ioResult` parameter: `none` = success,
`some cause` = failure) — on failure the registry is untouched, on
success the registry entry is updated through the source's
`set_location`. -/
def executeTransfer (budgets : String → CapacityBudget) (reg : List LayerMetadata)
    (req : TransferRequest) (ioResult : Option String)
    (dest_path : Option String) (dest_gpu : Option Nat) :
    List LayerMetadata × TransferOutcome :=
  match registryGet reg req.layerId with
  | none => (reg, .failedUnknownLayer)
  | some meta =>
    if meta.currentDevice = req.destinationDevice then
      (reg, .completedNoop)
    else if ¬ capacityWouldHold budgets reg req.destinationDevice meta.currentSizeBytes then
      (reg, .failedCapacity)
    else
      match ioResult with
      | some cause => (reg, .ioFailure cause)
      | none =>
        (reg.map (fun l =>
          if l.id == req.layerId then
            setLocation l req.destinationDevice dest_path dest_gpu
          else l), .completed)

/-- Modelled from the spec: how the worker marks the claimed request
on the terminal transition (spec sections 4.3, 7), through the
source's `update_status`. -/
def markRequest (req : TransferRequest) : TransferOutcome → TransferRequest
  | .completedNoop => updateStatus req "completed" none
  | .completed => updateStatus req "completed" none
  | .failedCapacity => updateStatus req "failed" (some "CapacityExceeded")
  | .ioFailure cause => updateStatus req "failed" (some ("IOFailure: " ++ cause))
  | .failedUnknownLayer => updateStatus req "failed" (some "UnknownLayer")

/-- One queued transfer together with the outcome of its I/O and the
destination location produced by the destination tier store. -/
structure TransferStep where
  req : TransferRequest
  ioResult : Option String
  destPath : Option String
  destGpu : Option Nat

/-- Executing a whole sequence of claimed transfers in order. -/
def runTransfers (budgets : String → CapacityBudget) (reg : List LayerMetadata) :
    List TransferStep → List LayerMetadata
  | [] => reg
  | s :: rest =>
    runTransfers budgets
      (executeTransfer budgets reg s.req s.ioResult s.destPath s.destGpu).1 rest

/-- A sample registered layer: id 0, 100 bytes, resident on host memory. -/
def sampleLayer : LayerMetadata :=
  mkLayerMetadata 0 "layer0" 100 "cpu" none none none none none

/-- A sample queued request used to fill the queue in witnesses. -/
def dummyRequest : TransferRequest :=
  mkTransferRequest 0 "cpu" "cpu" 5 0 false

/-- A hardware snapshot in which every optional tier is unavailable. -/
def unavailableNvmeSummary : HardwareSummary :=
  { gpuAvailable := false, nvmeAvailable := false, ramdiskAvailable := false }

/-- The spec's priority-ordering scenario (section 8): four requests
with priorities 5, 1, 5, 3 submitted in that order (timestamps
0, 1, 2, 3). -/
def examplePriorityQueue : List TransferRequest :=
  [mkTransferRequest 10 "cpu" "nvme" 5 0 false,
   mkTransferRequest 11 "cpu" "nvme" 1 1 false,
   mkTransferRequest 12 "cpu" "nvme" 5 2 false,
   mkTransferRequest 13 "cpu" "nvme" 3 3 false]

/-- A sample request carrying a completion callback. -/
def callbackRequest : TransferRequest :=
  mkTransferRequest 1 "cpu" "nvme" 5 0 true

/-- A sample GPU configuration relying entirely on the defaults. -/
def sampleGpuConfig : GpuConfig :=
  { reservedVramMbPerGpu := fun _ => none
    reservedVramMbDefault := none
    maxUtilizationPercentPerGpu := fun _ => none
    maxUtilizationPercentDefault := none }

/-- A sample per-device total memory: 8 GiB on every device. -/
def sampleGpuMemory : Nat → Int := fun _ => 8589934592

/-- The device entry the detection loop produces for sample device 0. -/
def sampleGpuDevice : GpuDeviceInfo :=
  { id := 0
    totalMemoryBytes := 8589934592
    usableMemoryBytesPlanning := usableVramForGpu sampleGpuConfig 8589934592 0 }

/-- A sample budget: every tier has capacity 1000 bytes, no reserve,
utilization ceiling 1. -/
def sampleBudgets : String → CapacityBudget := fun _ =>
  { totalCapacityBytes := 1000, reservedBytes := 0, maxUtilizationFraction := 1 }

/-- One claimed transfer of layer 0 to nvme with successful I/O. -/
def sampleSteps : List TransferStep :=
  [{ req := mkTransferRequest 0 "cpu" "nvme" 5 0 false
     ioResult := none
     destPath := some "/nvme/layer0"
     destGpu := none }]

end TensorServer

namespace TensorServer

/-! ## Claim C10 -/

/-- Claim C10: after construction and after every `set_location` call,
`loaded_in_memory` is true iff the layer's current device is not
`"nvme"`; in particular a layer placed on ramdisk is reported as
loaded in memory. -/
theorem loadedInMemory_iff_not_nvme :
    (∀ (lid : Nat) (nm : String) (sz : Nat) (dev : String) (g : Option Nat)
        (ct qt np rp : Option String),
      ((mkLayerMetadata lid nm sz dev g ct qt np rp).loadedInMemory = true ↔
        (mkLayerMetadata lid nm sz dev g ct qt np rp).currentDevice ≠ "nvme")) ∧
    (∀ (m : LayerMetadata) (d : String) (p : Option String) (g : Option Nat),
      ((setLocation m d p g).loadedInMemory = true ↔
        (setLocation m d p g).currentDevice ≠ "nvme")) ∧
    (∀ (m : LayerMetadata) (p : Option String) (g : Option Nat),
      (setLocation m "ramdisk" p g).loadedInMemory = true) := by
  refine ⟨?_, ?_, ?_⟩
  · intro lid nm sz dev g ct qt np rp
    simp [mkLayerMetadata]
  · intro m d p g
    simp [setLocation]
  · intro m p g
    simp [setLocation]

/-! ## Claim C7 -/

/-- Claim C7 counterexample: the constructor stores the `nvme_path`
argument unchecked, so building a layer on device `"gpu"` with a gpu
id while also passing an `nvme_path` yields a state where both the
location path and the accelerator id are meaningful — the claimed
invariant fails right after construction. -/
theorem locationInvariant_constructor_cex :
    ¬ locationInvariant
      (mkLayerMetadata 0 "layer0" 100 "gpu" (some 0) none none
        (some "/nvme/layer0") none) := by
  decide

/-- Claim C7 (amended): after every `set_location` call the invariant
holds unconditionally; after construction it holds provided the
`nvme_path` and `ramdisk_path` arguments are consistent with
`current_device` (the constructor forces `gpu_id` consistent but
stores the path arguments unchecked). -/
theorem locationInvariant_amended :
    (∀ (m : LayerMetadata) (d : String) (p : Option String) (g : Option Nat),
      locationInvariant (setLocation m d p g)) ∧
    (∀ (lid : Nat) (nm : String) (sz : Nat) (dev : String) (g : Option Nat)
        (ct qt np rp : Option String),
      (np.isSome → dev = "nvme") → (rp.isSome → dev = "ramdisk") →
      locationInvariant (mkLayerMetadata lid nm sz dev g ct qt np rp)) := by
  constructor
  · intro m d p g
    unfold locationInvariant locationPathMeaningful acceleratorIdMeaningful
    by_cases h1 : d = "nvme" <;> by_cases h2 : d = "ramdisk" <;>
      by_cases h3 : d = "gpu" <;> simp_all [setLocation]
  · intro lid nm sz dev g ct qt np rp hnp hrp
    simp only [locationInvariant, locationPathMeaningful, acceleratorIdMeaningful,
      mkLayerMetadata]
    refine ⟨?_, ?_, ?_, ?_⟩
    · rintro ⟨hlp, hacc⟩
      have hdev : dev = "gpu" := by
        by_cases h : dev = "gpu"
        · exact h
        · simp [h] at hacc
      rcases hlp with h | h
      · have h2 := hnp h
        rw [hdev] at h2
        exact absurd h2 (by decide)
      · have h2 := hrp h
        rw [hdev] at h2
        exact absurd h2 (by decide)
    · rintro (h | h)
      · exact Or.inr (hnp h)
      · exact Or.inl (hrp h)
    · intro hacc
      by_cases h : dev = "gpu"
      · exact h
      · simp [h] at hacc
    · rintro ⟨hr, hn, hg⟩
      constructor
      · rintro (h | h)
        · exact hn (hnp h)
        · exact hr (hrp h)
      · intro hacc
        simp [hg] at hacc

/-- Witness for the amended Claim C7 theorem at concrete inputs. -/
theorem locationInvariant_amended_witness :
    locationInvariant (setLocation sampleLayer "nvme" (some "/n/0") none) ∧
    locationInvariant
      (mkLayerMetadata 7 "w" 10 "nvme" none none none (some "/n/7") none) :=
  ⟨locationInvariant_amended.1 sampleLayer "nvme" (some "/n/0") none,
   locationInvariant_amended.2 7 "w" 10 "nvme" none none none (some "/n/7") none
     (fun _ => rfl) (by simp)⟩

/-! ## Claim C6 -/

/-- Claim C6 counterexample: `update_status` has no transition guard —
two consecutive `update_status("completed")` calls on a request that
carries a completion callback invoke the callback twice, refuting
"the callback is invoked at most once over any sequence of
update_status calls". -/
theorem updateStatus_callback_twice_cex :
    (updateStatus (updateStatus callbackRequest "completed" none)
      "completed" none).callbackCount = 2 := by
  decide

/-- Claim C6 (amended): `update_status` overwrites the status
unconditionally and invokes the completion callback on every call
whose new status is terminal (`"completed"` or `"failed"`); over any
sequence of `update_status` calls the callback fires exactly once per
terminal-status call — hence at most once precisely when the sequence
contains at most one terminal update, as in the intended
pending → in_progress → terminal discipline. -/
theorem callback_count_counts_terminal_updates (r : TransferRequest)
    (calls : List (String × Option String)) :
    (updateStatusSeq r calls).callbackCount =
      r.callbackCount +
        (if r.hasCallback then
          (calls.filter (fun c => isTerminalStatus c.1)).length
        else 0) := by
  induction calls generalizing r with
  | nil => simp [updateStatusSeq]
  | cons c rest ih =>
    obtain ⟨s, e⟩ := c
    have hcb : (updateStatus r s e).hasCallback = r.hasCallback := rfl
    simp only [updateStatusSeq, ih, hcb]
    by_cases hterm : s = "completed" ∨ s = "failed" <;>
      by_cases hr : r.hasCallback <;>
        simp [updateStatus, isTerminalStatus, List.filter_cons, hterm, hr] <;> omega

/-! ## Claim C4 -/

/-- Claim C4 counterexample: `api_transfer_layer` never consults the
hardware snapshot.  With every optional tier unavailable
(`tierAvailable ... "nvme" = false`), submitting a transfer of the
registered layer 0 to `"nvme"` is still accepted and the request is
placed on the queue — refuting "submit returns a TierUnavailable
rejection and the request is never placed on the transfer queue". -/
theorem submit_ignores_tier_availability_cex :
    tierAvailable unavailableNvmeSummary "nvme" = false ∧
    (apiTransferLayer [sampleLayer] [] 0 0 "nvme" 5).1 = .accepted 0 "nvme" ∧
    (apiTransferLayer [sampleLayer] [] 0 0 "nvme" 5).2.length = 1 := by
  decide

/-- Claim C4 (amended): the submit path does not check tier
availability — whenever the layer exists, the destination string has a
valid prefix and the queue is not full, the request is accepted and
queued, even under a hardware snapshot in which the destination tier
is unavailable. -/
theorem submit_independent_of_availability (hw : HardwareSummary)
    (reg : List LayerMetadata) (queue : List TransferRequest) (now : Nat)
    (lid : Nat) (dest : String) (prio : Nat) (meta : LayerMetadata)
    (hfind : registryGet reg lid = some meta)
    (hpre : validPrefixes.any (fun p => pyStartsWith dest p) = true)
    (hroom : queue.length < transferQueueMaxsize)
    (hunavail : tierAvailable hw dest = false) :
    apiTransferLayer reg queue now lid dest prio =
      (.accepted meta.id dest,
        queue ++ [mkTransferRequest meta.id meta.currentDevice dest prio now false]) := by
  clear hunavail
  simp [apiTransferLayer, hfind, hpre, Nat.not_le_of_lt hroom]

/-- Witness for the amended Claim C4 theorem at concrete inputs. -/
theorem submit_independent_of_availability_witness :
    registryGet [sampleLayer] 0 = some sampleLayer ∧
    tierAvailable unavailableNvmeSummary "nvme" = false ∧
    apiTransferLayer [sampleLayer] [] 0 0 "nvme" 5 =
      (.accepted sampleLayer.id "nvme",
        [mkTransferRequest sampleLayer.id sampleLayer.currentDevice "nvme" 5 0 false]) :=
  ⟨by decide, by decide,
   by
    have h := submit_independent_of_availability unavailableNvmeSummary
      [sampleLayer] [] 0 0 "nvme" 5 sampleLayer (by decide) (by decide)
      (by decide) (by decide)
    simpa using h⟩

/-! ## Claim C8 -/

/-- Claim C8: when the bounded transfer queue already holds
`maxsize = 200` items, `put_nowait` raises `queue.Full` immediately
(no blocking — the endpoint uses the non-blocking variant), the
endpoint answers 503 `queueFull`, and the queue contents are
unchanged; the queue is also unchanged when the submission fails
earlier validation. -/
theorem queue_full_rejection (reg : List LayerMetadata)
    (queue : List TransferRequest) (now : Nat) (lid : Nat) (dest : String)
    (prio : Nat) (hfull : queue.length ≥ transferQueueMaxsize) :
    (apiTransferLayer reg queue now lid dest prio).2 = queue ∧
    (∀ meta : LayerMetadata, registryGet reg lid = some meta →
      validPrefixes.any (fun p => pyStartsWith dest p) = true →
      (apiTransferLayer reg queue now lid dest prio).1 = .queueFull) := by
  constructor
  · cases hf : registryGet reg lid with
    | none => simp [apiTransferLayer, hf]
    | some meta =>
      by_cases hpre : (validPrefixes.any fun p => pyStartsWith dest p) = true
      · simp [apiTransferLayer, hf, hpre, hfull]
      · simp [apiTransferLayer, hf, hpre]
  · intro meta hf hpre
    simp [apiTransferLayer, hf, hpre, hfull]

/-- Witness for Claim C8: a concrete full queue of 200 requests. -/
theorem queue_full_rejection_witness :
    (List.replicate 200 dummyRequest).length ≥ transferQueueMaxsize ∧
    (apiTransferLayer [sampleLayer] (List.replicate 200 dummyRequest) 0 0
      "nvme" 5).2 = List.replicate 200 dummyRequest ∧
    (apiTransferLayer [sampleLayer] (List.replicate 200 dummyRequest) 0 0
      "nvme" 5).1 = .queueFull := by
  have hlen : (List.replicate 200 dummyRequest).length ≥ transferQueueMaxsize := by
    rw [List.length_replicate, transferQueueMaxsize]
  have h := queue_full_rejection [sampleLayer] (List.replicate 200 dummyRequest)
    0 0 "nvme" 5 hlen
  exact ⟨hlen, h.1, h.2 sampleLayer (by decide) (by decide)⟩

/-! ## Claim C3 -/

theorem transferLt_irrefl (a : TransferRequest) : transferLt a a = false := by
  simp [transferLt]

theorem transferLt_iff (a b : TransferRequest) :
    transferLt a b = true ↔
      (a.priority < b.priority ∨
        (a.priority = b.priority ∧ a.timestamp < b.timestamp)) := by
  unfold transferLt
  split <;> rename_i h <;> simp_all

theorem transferLt_trans (a b c : TransferRequest) (h1 : transferLt a b = true)
    (h2 : transferLt b c = true) : transferLt a c = true := by
  rw [transferLt_iff] at h1 h2 ⊢
  omega

theorem transferLt_neg_trans (a b c : TransferRequest)
    (h1 : transferLt b a = false) (h2 : transferLt c b = false) :
    transferLt c a = false := by
  rw [Bool.eq_false_iff, Ne, transferLt_iff] at h1 h2 ⊢
  omega

theorem transferLt_of_not_lt (a b : TransferRequest)
    (hts : a.timestamp ≠ b.timestamp) (h : transferLt b a = false) :
    transferLt a b = true := by
  rw [Bool.eq_false_iff, Ne, transferLt_iff] at h
  rw [transferLt_iff]
  omega

theorem selectMin_length (m : TransferRequest) (l : List TransferRequest) :
    (selectMin m l).2.length = l.length := by
  induction l generalizing m with
  | nil => rfl
  | cons x xs ih =>
    simp only [selectMin]
    split <;> simp [ih]

theorem selectMin_perm (m : TransferRequest) (l : List TransferRequest) :
    List.Perm ((selectMin m l).1 :: (selectMin m l).2) (m :: l) := by
  induction l generalizing m with
  | nil => simp [selectMin]
  | cons x xs ih =>
    simp only [selectMin]
    split
    · exact (List.Perm.swap m (selectMin x xs).1 (selectMin x xs).2).trans
        ((ih x).cons m)
    · exact (List.Perm.swap x (selectMin m xs).1 (selectMin m xs).2).trans
        (((ih m).cons x).trans (List.Perm.swap m x xs))

theorem selectMin_not_lt (m : TransferRequest) (l : List TransferRequest) :
    transferLt m (selectMin m l).1 = false ∧
      ∀ y ∈ (selectMin m l).2, transferLt y (selectMin m l).1 = false := by
  induction l generalizing m with
  | nil => simp [selectMin, transferLt_irrefl]
  | cons x xs ih =>
    simp only [selectMin]
    split
    · rename_i hlt
      have hb : transferLt m (selectMin x xs).1 = false := by
        by_contra hc
        have hm : transferLt m (selectMin x xs).1 = true := by
          cases h : transferLt m (selectMin x xs).1 with
          | false => exact absurd h hc
          | true => rfl
        have h2 := transferLt_trans x m (selectMin x xs).1 hlt hm
        rw [(ih x).1] at h2
        exact Bool.noConfusion h2
      refine ⟨hb, ?_⟩
      intro y hy
      rcases List.mem_cons.mp hy with rfl | hy
      · exact hb
      · exact (ih x).2 y hy
    · rename_i hnlt
      have hxm : transferLt x m = false := by
        cases h : transferLt x m with
        | false => rfl
        | true => exact absurd h hnlt
      refine ⟨(ih m).1, ?_⟩
      intro y hy
      rcases List.mem_cons.mp hy with rfl | hy
      · exact transferLt_neg_trans (selectMin m xs).1 m y (ih m).1 hxm
      · exact (ih m).2 y hy

theorem drainQueueFuel_perm (n : Nat) (l : List TransferRequest)
    (h : l.length ≤ n) : List.Perm (drainQueueFuel n l) l := by
  induction n generalizing l with
  | zero =>
    cases l with
    | nil => simp [drainQueueFuel]
    | cons x xs => simp at h
  | succ n ih =>
    cases l with
    | nil => simp [drainQueueFuel]
    | cons x xs =>
      simp only [drainQueueFuel]
      have hih := ih (selectMin x xs).2 (by
        rw [selectMin_length]
        simpa using Nat.le_of_succ_le_succ (by simpa using h))
      exact (hih.cons (selectMin x xs).1).trans (selectMin_perm x xs)

theorem drainQueueFuel_pairwise (n : Nat) (l : List TransferRequest)
    (h : l.length ≤ n) :
    (drainQueueFuel n l).Pairwise (fun a b => transferLt b a = false) := by
  induction n generalizing l with
  | zero => simp [drainQueueFuel]
  | succ n ih =>
    cases l with
    | nil => simp [drainQueueFuel]
    | cons x xs =>
      have hlen : (selectMin x xs).2.length ≤ n := by
        rw [selectMin_length]
        simpa using Nat.le_of_succ_le_succ (by simpa using h)
      simp only [drainQueueFuel]
      rw [List.pairwise_cons]
      constructor
      · intro y hy
        have hy2 : y ∈ (selectMin x xs).2 :=
          (drainQueueFuel_perm n (selectMin x xs).2 hlen).mem_iff.mp hy
        exact (selectMin_not_lt x xs).2 y hy2
      · exact ih (selectMin x xs).2 hlen

/-- Claim C3: requests dequeue exactly in the order of
`(priority ascending, enqueue_time ascending)` — when the queued
requests carry strictly increasing timestamps (arrival order), entry
`i` of the drained sequence comes before entry `j` iff it has a
smaller priority number, or an equal priority and an earlier enqueue
timestamp; and for the spec's scenario of priorities [5, 1, 5, 3]
submitted in that order, the dequeue order is
[priority 1, priority 3, first 5, second 5]. -/
theorem transfer_dequeue_order (qs : List TransferRequest)
    (hts : qs.Pairwise (fun a b => a.timestamp < b.timestamp)) :
    (∀ (i j : Nat) (hi : i < (drainQueue qs).length)
        (hj : j < (drainQueue qs).length),
      (i < j ↔
        ((drainQueue qs).get ⟨i, hi⟩).priority <
            ((drainQueue qs).get ⟨j, hj⟩).priority ∨
          (((drainQueue qs).get ⟨i, hi⟩).priority =
              ((drainQueue qs).get ⟨j, hj⟩).priority ∧
            ((drainQueue qs).get ⟨i, hi⟩).timestamp <
              ((drainQueue qs).get ⟨j, hj⟩).timestamp))) ∧
    drainQueue examplePriorityQueue =
      [mkTransferRequest 11 "cpu" "nvme" 1 1 false,
       mkTransferRequest 13 "cpu" "nvme" 3 3 false,
       mkTransferRequest 10 "cpu" "nvme" 5 0 false,
       mkTransferRequest 12 "cpu" "nvme" 5 2 false] := by
  constructor
  · have hperm : List.Perm (drainQueue qs) qs := drainQueueFuel_perm _ _ le_rfl
    have hle : (drainQueue qs).Pairwise (fun a b => transferLt b a = false) :=
      drainQueueFuel_pairwise _ _ le_rfl
    have hne : qs.Pairwise (fun a b => a.timestamp ≠ b.timestamp) :=
      hts.imp (fun h => Nat.ne_of_lt h)
    have hne' : (drainQueue qs).Pairwise
        (fun a b => a.timestamp ≠ b.timestamp) :=
      (hperm.pairwise_iff (fun h => Ne.symm h)).mpr hne
    have hstrict : (drainQueue qs).Pairwise
        (fun a b => transferLt a b = true) :=
      (hle.and hne').imp (fun h => transferLt_of_not_lt _ _ h.2 h.1)
    rw [List.pairwise_iff_get] at hstrict
    intro i j hi hj
    constructor
    · intro hij
      have h := hstrict ⟨i, hi⟩ ⟨j, hj⟩ hij
      exact (transferLt_iff _ _).1 h
    · intro hlt
      by_contra hij
      have hji : j ≤ i := Nat.le_of_not_lt hij
      rcases Nat.eq_or_lt_of_le hji with heq | hlt2
      · subst heq
        have hfin : (⟨j, hi⟩ : Fin (drainQueue qs).length) = ⟨j, hj⟩ := rfl
        rw [hfin] at hlt
        omega
      · have h2 := hstrict ⟨j, hj⟩ ⟨i, hi⟩ hlt2
        rw [transferLt_iff] at h2
        omega
  · decide

/-- Witness for Claim C3: the spec's [5, 1, 5, 3] scenario satisfies
the strictly-increasing-timestamp hypothesis and dequeues as
[1, 3, first 5, second 5]. -/
theorem transfer_dequeue_order_witness :
    examplePriorityQueue.Pairwise (fun a b => a.timestamp < b.timestamp) ∧
    drainQueue examplePriorityQueue =
      [mkTransferRequest 11 "cpu" "nvme" 1 1 false,
       mkTransferRequest 13 "cpu" "nvme" 3 3 false,
       mkTransferRequest 10 "cpu" "nvme" 5 0 false,
       mkTransferRequest 12 "cpu" "nvme" 5 2 false] :=
  ⟨by decide, (transfer_dequeue_order examplePriorityQueue (by decide)).2⟩

/-! ## Claim C9 -/

theorem usableVramForGpu_eq_spec (cfg : GpuConfig) (t : Int) (i : Nat) :
    usableVramForGpu cfg t i = specUsableAcceleratorMemory cfg t i := by
  unfold usableVramForGpu specUsableAcceleratorMemory
  norm_num

/-- Claim C9: for every accelerator device `i`, `detect_all_hardware`
records that device's usable planning memory as
`max(0, (total_memory_bytes − reserved_vram_mb(i)·2^20) ·
max_utilization_percent(i) / 100)`, with the per-device configured
values falling back to the configured defaults, and records the sum
over all devices as the total usable accelerator budget
(`total_usable_vram_bytes_planning`). -/
theorem gpu_capacity_detection (cfg : GpuConfig) (totalMemory : Nat → Int)
    (count : Nat) :
    (∀ d ∈ (detectGpuLoop cfg totalMemory count).1,
      d.totalMemoryBytes = totalMemory d.id ∧
      d.usableMemoryBytesPlanning =
        specUsableAcceleratorMemory cfg (totalMemory d.id) d.id) ∧
    (detectGpuLoop cfg totalMemory count).2 =
      ∑ i ∈ Finset.range count,
        specUsableAcceleratorMemory cfg (totalMemory i) i := by
  induction count with
  | zero => simp [detectGpuLoop]
  | succ n ih =>
    constructor
    · intro d hd
      simp only [detectGpuLoop, List.mem_append, List.mem_singleton] at hd
      rcases hd with hd | hd
      · exact ih.1 d hd
      · subst hd
        exact ⟨rfl, usableVramForGpu_eq_spec cfg (totalMemory n) n⟩
    · simp only [detectGpuLoop]
      rw [Finset.sum_range_succ, ← ih.2, usableVramForGpu_eq_spec]

/-- Witness for Claim C9 at a concrete two-device configuration. -/
theorem gpu_capacity_detection_witness :
    sampleGpuDevice ∈ (detectGpuLoop sampleGpuConfig sampleGpuMemory 2).1 ∧
    sampleGpuDevice.totalMemoryBytes = sampleGpuMemory sampleGpuDevice.id ∧
    sampleGpuDevice.usableMemoryBytesPlanning =
      specUsableAcceleratorMemory sampleGpuConfig
        (sampleGpuMemory sampleGpuDevice.id) sampleGpuDevice.id ∧
    (detectGpuLoop sampleGpuConfig sampleGpuMemory 2).2 =
      ∑ i ∈ Finset.range 2,
        specUsableAcceleratorMemory sampleGpuConfig (sampleGpuMemory i) i := by
  have hmem : sampleGpuDevice ∈ (detectGpuLoop sampleGpuConfig sampleGpuMemory 2).1 := by
    decide
  have h := gpu_capacity_detection sampleGpuConfig sampleGpuMemory 2
  exact ⟨hmem, (h.1 sampleGpuDevice hmem).1, (h.1 sampleGpuDevice hmem).2, h.2⟩

/-! ## Capacity accounting lemmas for the executor claims -/

theorem usedBytes_nil (tier : String) : usedBytes [] tier = 0 := rfl

theorem usedBytes_cons (l : LayerMetadata) (reg : List LayerMetadata)
    (tier : String) :
    usedBytes (l :: reg) tier =
      (if l.currentDevice == tier then l.currentSizeBytes else 0) +
        usedBytes reg tier := by
  unfold usedBytes
  by_cases h : (l.currentDevice == tier) = true <;>
    simp [List.filter_cons, h]

theorem setLocation_id (m : LayerMetadata) (d : String) (p : Option String)
    (g : Option Nat) : (setLocation m d p g).id = m.id := rfl

theorem setLocation_size (m : LayerMetadata) (d : String) (p : Option String)
    (g : Option Nat) :
    (setLocation m d p g).currentSizeBytes = m.currentSizeBytes := rfl

theorem setLocation_device (m : LayerMetadata) (d : String) (p : Option String)
    (g : Option Nat) : (setLocation m d p g).currentDevice = d := rfl

theorem map_update_id (reg : List LayerMetadata) (lid : Nat)
    (g : LayerMetadata → LayerMetadata) (h : ∀ l ∈ reg, l.id ≠ lid) :
    reg.map (fun l => if l.id == lid then g l else l) = reg := by
  induction reg with
  | nil => rfl
  | cons x xs ih =>
    have hx : (x.id == lid) = false := by
      simpa using h x (List.mem_cons_self x xs)
    simp only [List.map_cons, hx, Bool.false_eq_true, if_false]
    rw [ih (fun l hl => h l (List.mem_cons_of_mem x hl))]

theorem usedBytes_map_update (reg : List LayerMetadata) (lid : Nat)
    (g : LayerMetadata → LayerMetadata) (meta : LayerMetadata) (tier : String)
    (hN : (reg.map (fun l => l.id)).Nodup)
    (hfind : reg.find? (fun l => l.id == lid) = some meta) :
    usedBytes (reg.map (fun l => if l.id == lid then g l else l)) tier +
      (if meta.currentDevice == tier then meta.currentSizeBytes else 0) =
    usedBytes reg tier +
      (if (g meta).currentDevice == tier then (g meta).currentSizeBytes else 0) := by
  induction reg with
  | nil => simp at hfind
  | cons x xs ih =>
    rw [List.find?_cons_eq_some] at hfind
    by_cases hx : (x.id == lid) = true
    · obtain rfl : x = meta := by
        rcases hfind with ⟨_, h⟩ | ⟨h, _⟩
        · exact h
        · rw [hx] at h
          exact Bool.noConfusion h
      have hxs : ∀ l ∈ xs, l.id ≠ lid := by
        intro l hl hcontra
        have hxid : x.id = lid := by simpa using hx
        rw [List.map_cons, List.nodup_cons] at hN
        exact hN.1 (by
          rw [hxid, ← hcontra]
          exact List.mem_map.mpr ⟨l, hl, rfl⟩)
      rw [List.map_cons, map_update_id xs lid g hxs]
      simp only [hx, if_true]
      rw [usedBytes_cons, usedBytes_cons]
      omega
    · have htail : List.find? (fun l => l.id == lid) xs = some meta := by
        rcases hfind with ⟨h, _⟩ | ⟨_, h⟩
        · exact absurd h hx
        · exact h
      have hx' : (x.id == lid) = false := by
        cases h : (x.id == lid) with
        | false => rfl
        | true => exact absurd h hx
      rw [List.map_cons]
      simp only [hx', Bool.false_eq_true, if_false]
      rw [usedBytes_cons, usedBytes_cons]
      have hN' : (xs.map (fun l => l.id)).Nodup := by
        rw [List.map_cons, List.nodup_cons] at hN
        exact hN.2
      have := ih hN' htail
      omega

theorem map_update_ids (reg : List LayerMetadata) (lid : Nat) (d : String)
    (p : Option String) (g : Option Nat) :
    ((reg.map (fun l => if l.id == lid then setLocation l d p g else l)).map
      (fun l => l.id)) = reg.map (fun l => l.id) := by
  induction reg with
  | nil => rfl
  | cons x xs ih =>
    simp only [List.map_cons, ih]
    congr 1
    split <;> rfl

theorem executeTransfer_preserves (budgets : String → CapacityBudget)
    (reg : List LayerMetadata) (req : TransferRequest) (io : Option String)
    (p : Option String) (g : Option Nat)
    (hN : (reg.map (fun l => l.id)).Nodup)
    (hInv : tierInvariant budgets reg) :
    tierInvariant budgets (executeTransfer budgets reg req io p g).1 ∧
      ((executeTransfer budgets reg req io p g).1.map (fun l => l.id)).Nodup := by
  unfold executeTransfer
  cases hfind : registryGet reg req.layerId with
  | none => exact ⟨hInv, hN⟩
  | some meta =>
    simp only []
    by_cases hsame : meta.currentDevice = req.destinationDevice
    · rw [if_pos hsame]
      exact ⟨hInv, hN⟩
    · rw [if_neg hsame]
      by_cases hcap : capacityWouldHold budgets reg req.destinationDevice
          meta.currentSizeBytes
      · rw [if_neg (not_not_intro hcap)]
        cases io with
        | some cause => exact ⟨hInv, hN⟩
        | none =>
          constructor
          · intro T
            simp only []
            have hupdate := usedBytes_map_update reg req.layerId
              (fun l => setLocation l req.destinationDevice p g) meta T hN hfind
            simp only [] at hupdate
            rw [setLocation_device, setLocation_size] at hupdate
            by_cases hT : (req.destinationDevice == T) = true
            · have hTd : req.destinationDevice = T := by simpa using hT
              have hold : ¬ ((meta.currentDevice == T) = true) := by
                subst hTd
                simpa using hsame
              rw [if_pos hT, if_neg hold] at hupdate
              have hused : usedBytes (reg.map (fun l =>
                  if l.id == req.layerId then
                    setLocation l req.destinationDevice p g
                  else l)) T =
                  usedBytes reg T + meta.currentSizeBytes := by omega
              unfold capacityWouldHold at hcap
              rw [hTd] at hcap
              rw [hused]
              push_cast
              push_cast at hcap
              linarith
            · rw [if_neg hT] at hupdate
              have hle : usedBytes (reg.map (fun l =>
                  if l.id == req.layerId then
                    setLocation l req.destinationDevice p g
                  else l)) T ≤ usedBytes reg T := by omega
              have hq : (usedBytes (reg.map (fun l =>
                  if l.id == req.layerId then
                    setLocation l req.destinationDevice p g
                  else l)) T : ℚ) ≤ (usedBytes reg T : ℚ) := by
                exact_mod_cast hle
              have := hInv T
              push_cast
              push_cast at this
              linarith
          · simp only []
            rw [map_update_ids]
            exact hN
      · rw [if_pos hcap]
        exact ⟨hInv, hN⟩

theorem runTransfers_preserves (budgets : String → CapacityBudget)
    (steps : List TransferStep) :
    ∀ reg : List LayerMetadata, (reg.map (fun l => l.id)).Nodup →
      tierInvariant budgets reg →
      tierInvariant budgets (runTransfers budgets reg steps) := by
  induction steps with
  | nil => intro reg _ hInv; exact hInv
  | cons s rest ih =>
    intro reg hN hInv
    have h := executeTransfer_preserves budgets reg s.req s.ioResult s.destPath
      s.destGpu hN hInv
    exact ih _ h.2 h.1

/-! ## Claim C1 -/

/-- Claim C1 (spec-modelled executor): for every tier `T`, after any
sequence of completed transfers executed by the spec's coordinator
loop, `sum(current_size_bytes of layers on T) + reserved(T) ≤
capacity(T) · max_utilization(T)`; and any transfer whose completion
would violate the destination tier's bound is rejected with
`CapacityExceeded` before execution, leaving the registry untouched. -/
theorem tier_capacity_invariant (budgets : String → CapacityBudget)
    (reg₀ : List LayerMetadata) (steps : List TransferStep)
    (hN : (reg₀.map (fun l => l.id)).Nodup)
    (hInv : tierInvariant budgets reg₀) :
    tierInvariant budgets (runTransfers budgets reg₀ steps) ∧
    (∀ (reg : List LayerMetadata) (req : TransferRequest) (io : Option String)
        (p : Option String) (g : Option Nat) (meta : LayerMetadata),
      registryGet reg req.layerId = some meta →
      meta.currentDevice ≠ req.destinationDevice →
      ¬ capacityWouldHold budgets reg req.destinationDevice
        meta.currentSizeBytes →
      executeTransfer budgets reg req io p g = (reg, .failedCapacity)) := by
  constructor
  · exact runTransfers_preserves budgets steps reg₀ hN hInv
  · intro reg req io p g meta hfind hne hcap
    unfold executeTransfer
    rw [hfind]
    simp only []
    rw [if_neg hne, if_pos hcap]

/-- Witness for Claim C1: a concrete one-layer registry, uniform
budgets and a single successful transfer step. -/
theorem tier_capacity_invariant_witness :
    ((([sampleLayer] : List LayerMetadata).map (fun l => l.id)).Nodup) ∧
    tierInvariant sampleBudgets [sampleLayer] ∧
    tierInvariant sampleBudgets
      (runTransfers sampleBudgets [sampleLayer] sampleSteps) := by
  have hN : (([sampleLayer] : List LayerMetadata).map (fun l => l.id)).Nodup := by
    simp
  have hInv : tierInvariant sampleBudgets [sampleLayer] := by
    intro T
    have hu : usedBytes [sampleLayer] T ≤ 100 := by
      rw [usedBytes_cons, usedBytes_nil]
      have : sampleLayer.currentSizeBytes = 100 := rfl
      split <;> omega
    have hq : (usedBytes [sampleLayer] T : ℚ) ≤ 100 := by exact_mod_cast hu
    show ((usedBytes [sampleLayer] T : ℚ)) + ((0 : Nat) : ℚ) ≤
      ((1000 : Nat) : ℚ) * 1
    push_cast
    linarith
  exact ⟨hN, hInv,
    (tier_capacity_invariant sampleBudgets [sampleLayer] sampleSteps hN hInv).1⟩

/-! ## Claim C2 -/

/-- Claim C2 (spec-modelled executor): when the I/O write to the
destination fails, the registry — and so the layer's `current_tier`,
`location_path`, `accelerator_id` and `current_size_bytes` — is
exactly what it was before the transfer began, and the request is
marked failed through the source's `update_status` with the underlying
I/O error wrapped. -/
theorem io_failure_preserves_location (budgets : String → CapacityBudget)
    (reg : List LayerMetadata) (req : TransferRequest) (cause : String)
    (p : Option String) (g : Option Nat) (meta : LayerMetadata)
    (hfind : registryGet reg req.layerId = some meta)
    (hmove : meta.currentDevice ≠ req.destinationDevice)
    (hcap : capacityWouldHold budgets reg req.destinationDevice
      meta.currentSizeBytes) :
    executeTransfer budgets reg req (some cause) p g = (reg, .ioFailure cause) ∧
    registryGet (executeTransfer budgets reg req (some cause) p g).1
      req.layerId = some meta ∧
    (markRequest req (.ioFailure cause)).status = "failed" ∧
    (markRequest req (.ioFailure cause)).errorMessage =
      some ("IOFailure: " ++ cause) := by
  have hexec : executeTransfer budgets reg req (some cause) p g =
      (reg, .ioFailure cause) := by
    unfold executeTransfer
    rw [hfind]
    simp only []
    rw [if_neg hmove, if_neg (not_not_intro hcap)]
  have hne : ("IOFailure: " ++ cause) ≠ "" := by
    intro h
    have hlen := congrArg String.length h
    rw [String.length_append] at hlen
    have h11 : ("IOFailure: " : String).length = 11 := rfl
    have h0 : ("" : String).length = 0 := rfl
    omega
  refine ⟨hexec, ?_, rfl, ?_⟩
  · rw [hexec]
    exact hfind
  · simp only [markRequest, updateStatus]
    rw [if_pos hne]

/-- Witness for Claim C2: layer 0 moving from cpu to nvme with a
failing disk write. -/
theorem io_failure_preserves_location_witness :
    executeTransfer sampleBudgets [sampleLayer]
        (mkTransferRequest 0 "cpu" "nvme" 5 0 false) (some "disk write error")
        (some "/nvme/layer0") none = ([sampleLayer], .ioFailure "disk write error") ∧
    registryGet [sampleLayer] 0 = some sampleLayer ∧
    (markRequest (mkTransferRequest 0 "cpu" "nvme" 5 0 false)
      (.ioFailure "disk write error")).status = "failed" := by
  have hcap : capacityWouldHold sampleBudgets [sampleLayer] "nvme"
      sampleLayer.currentSizeBytes := by
    show ((usedBytes [sampleLayer] "nvme" + sampleLayer.currentSizeBytes +
      (0 : Nat) : ℚ)) ≤ ((1000 : Nat) : ℚ) * 1
    have hu : usedBytes [sampleLayer] "nvme" = 0 := by decide
    have hs : sampleLayer.currentSizeBytes = 100 := rfl
    rw [hu, hs]
    push_cast
    linarith
  have h := io_failure_preserves_location sampleBudgets [sampleLayer]
    (mkTransferRequest 0 "cpu" "nvme" 5 0 false) "disk write error"
    (some "/nvme/layer0") none sampleLayer (by decide) (by decide) hcap
  exact ⟨h.1, by decide, h.2.2.1⟩

/-! ## Claim C5 -/

/-- Claim C5 (spec-modelled executor): a transfer whose source tier
equals its destination tier completes immediately as a no-op success —
the registry (hence the layer's `current_tier`, `location_path`,
`accelerator_id` and `access_count`) is unchanged, the request is
marked completed, and the result does not depend on the I/O parameter
at all (normal execution is never entered). -/
theorem noop_transfer_immediate (budgets : String → CapacityBudget)
    (reg : List LayerMetadata) (req : TransferRequest) (io : Option String)
    (p : Option String) (g : Option Nat) (meta : LayerMetadata)
    (hfind : registryGet reg req.layerId = some meta)
    (hsame : meta.currentDevice = req.destinationDevice) :
    executeTransfer budgets reg req io p g = (reg, .completedNoop) ∧
    registryGet (executeTransfer budgets reg req io p g).1 req.layerId =
      some meta ∧
    (markRequest req .completedNoop).status = "completed" ∧
    (∀ io' : Option String,
      executeTransfer budgets reg req io' p g =
        executeTransfer budgets reg req io p g) := by
  have hexec : ∀ io' : Option String,
      executeTransfer budgets reg req io' p g = (reg, .completedNoop) := by
    intro io'
    unfold executeTransfer
    rw [hfind]
    simp only []
    rw [if_pos hsame]
  refine ⟨hexec io, ?_, rfl, ?_⟩
  · rw [hexec io]
    exact hfind
  · intro io'
    rw [hexec io', hexec io]

/-- Witness for Claim C5: layer 0 is already on cpu; a cpu → cpu
transfer is a no-op success whether or not the I/O would fail. -/
theorem noop_transfer_immediate_witness :
    executeTransfer sampleBudgets [sampleLayer] dummyRequest
        (some "would-be error") none none = ([sampleLayer], .completedNoop) ∧
    registryGet [sampleLayer] 0 = some sampleLayer ∧
    (markRequest dummyRequest .completedNoop).status = "completed" := by
  have h := noop_transfer_immediate sampleBudgets [sampleLayer] dummyRequest
    (some "would-be error") none none sampleLayer (by decide) (by decide)
  exact ⟨h.1, by decide, h.2.2.1⟩

end TensorServer
